import Mathlib

/-!
Verification of the microbun repository's resilience core against its
natural-language specification.

The development shallowly embeds:
* `src/shared/utils/circuit-breaker.ts` — the `CircuitBreaker` class
  (state machine, retry loop, metrics accounting);
* `src/apps/service-registry/src/main.ts` — the registry's heartbeat
  endpoint and expiry-sweep tick over the Redis-backed store;
* `src/shared/config/environment.ts` — the registry timing configuration
  (`maxHeartbeatAge`, `cleanupInterval`);
* `shared/utils/registry.ts` — the registry client (`ServiceRegistryManager`)
  heartbeat/re-registration logic;
* `src/shared/events/exchanges.ts` — the RabbitMQ queue declaration
  defaults and the subscription message handler's ack/nack decision.

JavaScript numbers standing for timestamps are embedded as `Int`
(so `now - lastFailureTime < resetTimeout` keeps its JS meaning);
counters are `Nat`.  Asynchronous operations are embedded as pure
outcome functions: the wrapped operation of a circuit breaker becomes
`op : Nat → Bool` giving each attempt's success, and the timestamps the
code takes with `Date.now()` during the retry loop become
`failTime : Nat → Int`.
-/

namespace Microbun

/-! ## Circuit breaker (`src/shared/utils/circuit-breaker.ts`) -/

/-- Options of `CircuitBreaker` (fields relevant to control flow and
metrics; `timeout`, `retryBackoff` and `distributedTracking` only shape
real-time waiting and Redis mirroring and are not part of the state
machine). -/
structure CBOptions where
  failureThreshold : Nat
  resetTimeout : Int
  successThreshold : Nat
  maxRetries : Nat
  metricsTracking : Bool
  deriving Repr, DecidableEq

/-- Default options of the class (`failureThreshold: 5, resetTimeout:
30000, successThreshold: 3, maxRetries: 3, metricsTracking: true`). -/
def defaultCBOptions : CBOptions :=
  { failureThreshold := 5
    resetTimeout := 30000
    successThreshold := 3
    maxRetries := 3
    metricsTracking := true }

/-- The breaker's state field: `'CLOSED' | 'OPEN' | 'HALF_OPEN'`. -/
inductive CBState where
  | CLOSED
  | OPEN
  | HALF_OPEN
  deriving Repr, DecidableEq

/-- A `FailureContext` entry (`error` is abstracted away; `timestamp`
and `serviceId` are kept). -/
structure FailureContext where
  timestamp : Int
  serviceId : String
  deriving Repr, DecidableEq

/-- The `CircuitMetrics` record. -/
structure CircuitMetrics where
  totalCalls : Nat
  successCalls : Nat
  failureCalls : Nat
  lastFailures : List FailureContext
  deriving Repr, DecidableEq

/-- Mutable instance state of a `CircuitBreaker`. -/
structure Breaker where
  circuitId : String
  state : CBState
  failures : Nat
  successCount : Nat
  lastFailureTime : Int
  metrics : CircuitMetrics
  deriving Repr, DecidableEq

/-- A freshly constructed breaker. -/
def initBreaker (circuitId : String) : Breaker :=
  { circuitId := circuitId
    state := .CLOSED
    failures := 0
    successCount := 0
    lastFailureTime := 0
    metrics := { totalCalls := 0, successCalls := 0, failureCalls := 0, lastFailures := [] } }

/-- `recordFailureMetrics`: bumps `failureCalls`, pushes the failure
context, and shifts the oldest entry out when the list exceeds 10. -/
def recordFailureMetrics (opts : CBOptions) (b : Breaker) (fc : FailureContext) : Breaker :=
  if !opts.metricsTracking then b
  else
    let pushed := b.metrics.lastFailures ++ [fc]
    let limited := if pushed.length > 10 then pushed.tail else pushed
    { b with metrics :=
        { b.metrics with
            failureCalls := b.metrics.failureCalls + 1
            lastFailures := limited } }

/-- `onSuccess`: in `HALF_OPEN`, count the success and close the circuit
once `successThreshold` is reached; otherwise reset both counters. -/
def onSuccess (opts : CBOptions) (b : Breaker) : Breaker :=
  match b.state with
  | .HALF_OPEN =>
      let sc := b.successCount + 1
      if sc ≥ opts.successThreshold then
        { b with state := .CLOSED, successCount := 0, failures := 0 }
      else
        { b with successCount := sc }
  | _ => { b with successCount := 0, failures := 0 }

/-- `onFailure`: count the failure, stamp `lastFailureTime`, zero
`successCount`, and open the circuit when the threshold is reached or
when the breaker was `HALF_OPEN`. -/
def onFailure (opts : CBOptions) (now : Int) (b : Breaker) : Breaker :=
  let b1 := { b with failures := b.failures + 1, lastFailureTime := now, successCount := 0 }
  if b1.failures ≥ opts.failureThreshold then
    { b1 with state := .OPEN }
  else if b1.state = .HALF_OPEN then
    { b1 with state := .OPEN }
  else
    b1

/-- Result of an `execute` call: rejected with the circuit-open error,
resolved with the operation's value, or rejected with the last attempt's
error. -/
inductive ExecOutcome where
  | circuitOpen
  | ok
  | err
  deriving Repr, DecidableEq

/-- The retry loop of `execute` (`for attempt = 0..maxRetries`).
`op a` tells whether attempt `a` succeeds; `failTime a` is `Date.now()`
observed when attempt `a` fails.  The third component of the result
counts how many times the wrapped operation was invoked.  `remaining`
is the structural fuel `maxRetries + 1 - attempt`; exhausting it is the
(unreachable) `throw new Error('Max retries exceeded')` after the
loop. -/
def attemptLoop (opts : CBOptions) (op : Nat → Bool) (failTime : Nat → Int) :
    Nat → Nat → Breaker → ExecOutcome × Breaker × Nat
  | _, 0, b => (.err, b, 0)
  | attempt, remaining + 1, b =>
      if op attempt then
        let b1 := onSuccess opts b
        let b2 := { b1 with metrics :=
          { b1.metrics with successCalls := b1.metrics.successCalls + 1 } }
        (.ok, b2, 1)
      else
        let fc : FailureContext :=
          { timestamp := failTime attempt, serviceId := b.circuitId }
        let b1 := recordFailureMetrics opts b fc
        if attempt = opts.maxRetries then
          (.err, onFailure opts (failTime attempt) b1, 1)
        else
          let res := attemptLoop opts op failTime (attempt + 1) remaining b1
          (res.1, res.2.1, res.2.2 + 1)

/-- `execute`: bump `totalCalls`, reject while `OPEN` inside the reset
window, move to `HALF_OPEN` once the window has elapsed, then run the
retry loop. -/
def execute (opts : CBOptions) (op : Nat → Bool) (failTime : Nat → Int)
    (now : Int) (b : Breaker) : ExecOutcome × Breaker × Nat :=
  let b0 := { b with metrics := { b.metrics with totalCalls := b.metrics.totalCalls + 1 } }
  if b0.state = .OPEN then
    if now - b0.lastFailureTime < opts.resetTimeout then
      (.circuitOpen, b0, 0)
    else
      attemptLoop opts op failTime 0 (opts.maxRetries + 1) { b0 with state := .HALF_OPEN }
  else
    attemptLoop opts op failTime 0 (opts.maxRetries + 1) b0

example :
    (execute defaultCBOptions (fun _ => false) (fun i => (i : Int)) 0
      (initBreaker "c")).2.1.metrics.totalCalls = 1 := by decide

example :
    (execute defaultCBOptions (fun _ => false) (fun i => (i : Int)) 0
      (initBreaker "c")).2.2 = 4 := by decide

example :
    (execute defaultCBOptions (fun _ => false) (fun i => (i : Int)) 0
      (initBreaker "c")).2.1.metrics.failureCalls = 4 := by decide

example :
    (execute defaultCBOptions (fun _ => true) (fun i => (i : Int)) 0
      (initBreaker "c")).2.1.metrics.successCalls = 1 := by decide

/-! ## Service registry (`src/apps/service-registry/src/main.ts` and the
timing configuration of `src/shared/config/environment.ts`) -/

/-- Fields of the per-instance Redis hash stored at key
`service:{name}:{id}` (the `id`, `name` and `url` fields duplicate the
key and the host/port and are dropped). -/
structure ServiceInfo where
  host : String
  port : Int
  healthEndpoint : String
  version : String
  status : String
  registeredAt : Int
  lastHeartbeat : Int
  deriving Repr, DecidableEq

/-- Registry store: `records` models the hashes keyed by
`service:{name}:{id}` (key embedded as the pair `(name, id)`); `index`
models the membership pairs `(name, id)` of the sets `services:{name}`. -/
structure RegistryState where
  records : List ((String × String) × ServiceInfo)
  index : List (String × String)
  deriving Repr, DecidableEq

/-- Reply of the heartbeat endpoint. -/
inductive RegistryReply where
  | notFound
  | ok
  deriving Repr, DecidableEq

/-- Overwrite, in place, the value of the first entry with the given
key (Redis keys are unique, so there is at most one). -/
def updateFirstRecord (key : String × String) (f : ServiceInfo → ServiceInfo) :
    List ((String × String) × ServiceInfo) → List ((String × String) × ServiceInfo)
  | [] => []
  | e :: rest =>
      if e.1 == key then (e.1, f e.2) :: rest
      else e :: updateFirstRecord key f rest

/-- `PUT /heartbeat/:serviceId`: look up the keys matching
`service:*:{serviceId}`; with no match answer 404 Not Found and leave
the store alone; otherwise rewrite the first matching hash with the new
`status` and a fresh `lastHeartbeat`. -/
def heartbeat (st : RegistryState) (serviceId : String) (status : String)
    (now : Int) : RegistryReply × RegistryState :=
  match st.records.filter (fun e => e.1.2 == serviceId) with
  | [] => (.notFound, st)
  | e :: _ =>
      let upd := fun info : ServiceInfo =>
        { info with status := status, lastHeartbeat := now }
      (.ok, { st with records := updateFirstRecord e.1 upd st.records })

/-- `config.SERVICE_REGISTRY.maxHeartbeatAge = ttl + retryDelay * maxRetries`. -/
def maxHeartbeatAge (ttl retryDelay maxRetries : ℕ) : ℕ :=
  ttl + retryDelay * maxRetries

/-- `config.SERVICE_REGISTRY.cleanupInterval = Math.min(60000,
maxHeartbeatAge / 2)` (JS division, hence the value in `ℚ`). -/
def cleanupInterval (ttl retryDelay maxRetries : ℕ) : ℚ :=
  min 60000 ((maxHeartbeatAge ttl retryDelay maxRetries : ℚ) / 2)

/-- An instance is expired when `now - lastHeartbeat > MAX_HEARTBEAT_AGE`. -/
def heartbeatExpired (maxAge now : Int) (info : ServiceInfo) : Bool :=
  now - info.lastHeartbeat > maxAge

/-- Body of the sweep loop for one stored instance: if expired, `srem`
its id from `services:{name}` and `del` its hash, otherwise do nothing. -/
def sweepStep (maxAge now : Int) (acc : RegistryState)
    (e : (String × String) × ServiceInfo) : RegistryState :=
  if heartbeatExpired maxAge now e.2 then
    { records := acc.records.filter (fun r => !(r.1 == e.1))
      index := acc.index.filter (fun p => !(p == e.1)) }
  else acc

/-- One tick of the cleanup `setInterval`: iterate the body over the
snapshot of keys taken at the start of the tick. -/
def sweepTick (maxAge now : Int) (st : RegistryState) : RegistryState :=
  st.records.foldl (sweepStep maxAge now) st

/-! ## Registry client (`shared/utils/registry.ts`,
`ServiceRegistryManager`) -/

/-- Local state of the `ServiceRegistryManager` singleton (the fields
the heartbeat/retry logic touches). -/
structure ClientState where
  serviceId : Option String
  timerRunning : Bool
  appName : String
  retryCount : Nat
  deriving Repr, DecidableEq

/-- Parameters passed to `register` (optional fields absent when the
caller omitted them). -/
structure RegisterArgs where
  port : Int
  name : Option String
  version : Option String
  description : Option String
  host : Option String
  healthEndpoint : Option String
  deriving Repr, DecidableEq

/-- The values `register` actually posts to `/register`, after its
parameter defaults are applied. -/
structure ResolvedRegistration where
  port : Int
  name : String
  version : String
  description : String
  host : String
  healthEndpoint : String
  deriving Repr, DecidableEq

/-- Default resolution of `register`'s destructured parameters:
`name = 'app-service'`, `version = '1.0.0'`, `description = ''`,
`host = process.env.HOST || 'localhost'`, `healthEndpoint = '/health'`. -/
def resolveRegisterArgs (a : RegisterArgs) (envHOST : Option String) :
    ResolvedRegistration :=
  { port := a.port
    name := a.name.getD "app-service"
    version := a.version.getD "1.0.0"
    description := a.description.getD ""
    host := a.host.getD (envHOST.getD "localhost")
    healthEndpoint := a.healthEndpoint.getD "/health" }

/-- The argument object both re-registration sites build:
`{ port: process.env.PORT ? parseInt(process.env.PORT, 10) : 3000,
name: this.appName }`. -/
def reRegisterArgs (appName : String) (envPORT : Option Int) : RegisterArgs :=
  { port := envPORT.getD 3000
    name := some appName
    version := none
    description := none
    host := none
    healthEndpoint := none }

/-- Outcome of the heartbeat HTTP request: a resolved response with its
status, or a thrown error (for an axios error, the response status when
one exists). -/
inductive HttpOutcome where
  | success (status : Nat)
  | failure (axiosStatus : Option Nat)
  deriving Repr, DecidableEq

/-- Side action the heartbeat handler requests. -/
inductive ClientAction where
  | noAction
  | reRegister (args : RegisterArgs)
  deriving Repr, DecidableEq

/-- `sendHeartbeat`: without a local id, return; on a response, only
log; on a thrown error, log it, and when it is an axios 404 clear the
local id, stop the heartbeat timer and call `register` again. -/
def sendHeartbeat (st : ClientState) (resp : HttpOutcome)
    (envPORT : Option Int) : ClientState × ClientAction :=
  match st.serviceId with
  | none => (st, .noAction)
  | some _ =>
      match resp with
      | .success _ => (st, .noAction)
      | .failure s =>
          if s == some 404 then
            ({ st with serviceId := none, timerRunning := false },
             .reRegister (reRegisterArgs st.appName envPORT))
          else (st, .noAction)

/-- Retry decision of `handleRegistrationError`. -/
inductive RegistrationRetry where
  | retryAfter (delay : Int) (args : RegisterArgs)
  | giveUp
  deriving Repr, DecidableEq

/-- `handleRegistrationError`: below `maxRetries`, schedule
`register({port: env PORT or 3000, name: this.appName})` after
`retryDelay * 2^retryCount` and bump the retry count; otherwise give
up. -/
def handleRegistrationError (st : ClientState) (envPORT : Option Int)
    (maxRetries : Nat) (retryDelay : Int) : ClientState × RegistrationRetry :=
  if st.retryCount < maxRetries then
    ({ st with retryCount := st.retryCount + 1 },
     .retryAfter (retryDelay * 2 ^ st.retryCount) (reRegisterArgs st.appName envPORT))
  else
    (st, .giveUp)

/-! ## Message bus (`src/shared/events/exchanges.ts`, `RabbitMQService`) -/

/-- `EXCHANGES.DEAD_LETTER`. -/
def deadLetterExchangeName : String := "dead.letter"

/-- The catch-all pattern `setupDeadLetterQueue` binds the dead-letter
queue with. -/
def deadLetterBindingPattern : String := "#"

/-- The queue-assertion options relevant here (a field is `none` when
the caller's options object does not carry the key). -/
structure AssertQueueOptions where
  durable : Option Bool
  deadLetterExchange : Option String
  deriving Repr, DecidableEq

/-- Options object of a caller that passes none (`{}`), as
`subscribeToEvents` does when it calls `createQueue`. -/
def emptyQueueOptions : AssertQueueOptions :=
  { durable := none, deadLetterExchange := none }

/-- The merged options `createQueue` asserts the queue with:
`{ durable: true, deadLetterExchange: EXCHANGES.DEAD_LETTER,
...options }` — caller keys override the defaults. -/
def createQueueOptions (options : AssertQueueOptions) : AssertQueueOptions :=
  { durable := some (options.durable.getD true)
    deadLetterExchange := some (options.deadLetterExchange.getD deadLetterExchangeName) }

/-- What the consumer wrapper does with a delivery. -/
inductive MsgDisposition where
  | ack
  | nack (allUpTo requeue : Bool)
  deriving Repr, DecidableEq

/-- The `messageHandler` wrapper in `subscribeToEvents`: a null message
is ignored; otherwise parse the JSON body and run the handler, `ack` on
success and `nack(msg, false, false)` when parsing or the handler
throws.  `parse` models `JSON.parse` (`none` = throws) and
`handler` models the subscriber callback (`false` = throws). -/
def messageHandler {α : Type} (parse : String → Option α) (handler : α → Bool)
    (msg : Option String) : Option MsgDisposition :=
  match msg with
  | none => none
  | some m =>
      match parse m with
      | none => some (.nack false false)
      | some content =>
          if handler content then some .ack else some (.nack false false)

/-! ## Helper layer: the breaker's control fields

The retry loop interleaves metrics writes (`recordFailureMetrics`, the
`successCalls` bump) with the state machine (`onSuccess` / `onFailure`).
The two act on disjoint fields, so we project a breaker onto its control
fields and prove the loop's effect there once. -/

/-- The control fields of a breaker, the ones `onSuccess`/`onFailure`
read and write. -/
structure Ctrl where
  state : CBState
  failures : Nat
  successCount : Nat
  lastFailureTime : Int
  deriving Repr, DecidableEq

/-- Projection of a breaker onto its control fields. -/
def Breaker.ctrl (b : Breaker) : Ctrl :=
  { state := b.state
    failures := b.failures
    successCount := b.successCount
    lastFailureTime := b.lastFailureTime }

/-- Mirror of `onSuccess` on control fields. -/
def onSuccessCtrl (opts : CBOptions) (c : Ctrl) : Ctrl :=
  match c.state with
  | .HALF_OPEN =>
      let sc := c.successCount + 1
      if sc ≥ opts.successThreshold then
        { c with state := .CLOSED, successCount := 0, failures := 0 }
      else
        { c with successCount := sc }
  | _ => { c with successCount := 0, failures := 0 }

/-- Mirror of `onFailure` on control fields. -/
def onFailureCtrl (opts : CBOptions) (now : Int) (c : Ctrl) : Ctrl :=
  let c1 := { c with failures := c.failures + 1, lastFailureTime := now, successCount := 0 }
  if c1.failures ≥ opts.failureThreshold then
    { c1 with state := .OPEN }
  else if c1.state = .HALF_OPEN then
    { c1 with state := .OPEN }
  else
    c1

theorem recordFailureMetrics_ctrl (opts : CBOptions) (b : Breaker) (fc : FailureContext) :
    (recordFailureMetrics opts b fc).ctrl = b.ctrl := by
  unfold recordFailureMetrics
  split <;> rfl

theorem recordFailureMetrics_circuitId (opts : CBOptions) (b : Breaker) (fc : FailureContext) :
    (recordFailureMetrics opts b fc).circuitId = b.circuitId := by
  unfold recordFailureMetrics
  split <;> rfl

theorem onSuccess_ctrl (opts : CBOptions) (b : Breaker) :
    (onSuccess opts b).ctrl = onSuccessCtrl opts b.ctrl := by
  unfold onSuccess onSuccessCtrl Breaker.ctrl
  cases b.state
  · rfl
  · rfl
  · dsimp only
    split_ifs <;> rfl

theorem onFailure_ctrl (opts : CBOptions) (now : Int) (b : Breaker) :
    (onFailure opts now b).ctrl = onFailureCtrl opts now b.ctrl := by
  unfold onFailure onFailureCtrl Breaker.ctrl
  dsimp only
  split_ifs <;> rfl

theorem onSuccess_metrics (opts : CBOptions) (b : Breaker) :
    (onSuccess opts b).metrics = b.metrics := by
  unfold onSuccess
  cases b.state
  · rfl
  · rfl
  · dsimp only
    split_ifs <;> rfl

theorem onFailure_metrics (opts : CBOptions) (now : Int) (b : Breaker) :
    (onFailure opts now b).metrics = b.metrics := by
  unfold onFailure
  dsimp only
  split_ifs <;> rfl

theorem ctrl_set_metrics (b : Breaker) (m : CircuitMetrics) :
    ({ b with metrics := m } : Breaker).ctrl = b.ctrl := rfl

/-- Step equation of the loop: the attempt succeeds. -/
theorem attemptLoop_succ_true {opts : CBOptions} {op : Nat → Bool}
    {failTime : Nat → Int} {a r : Nat} {b : Breaker} (h : op a = true) :
    attemptLoop opts op failTime a (r + 1) b =
      (.ok,
       { onSuccess opts b with metrics :=
          { (onSuccess opts b).metrics with
              successCalls := (onSuccess opts b).metrics.successCalls + 1 } },
       1) := by
  simp [attemptLoop, h]

/-- Step equation of the loop: the last allowed attempt fails. -/
theorem attemptLoop_succ_final {opts : CBOptions} {op : Nat → Bool}
    {failTime : Nat → Int} {a r : Nat} {b : Breaker} (h : op a = false)
    (ha : a = opts.maxRetries) :
    attemptLoop opts op failTime a (r + 1) b =
      (.err,
       onFailure opts (failTime a)
         (recordFailureMetrics opts b { timestamp := failTime a, serviceId := b.circuitId }),
       1) := by
  subst ha
  simp [attemptLoop, h]

/-- Step equation of the loop: a non-final attempt fails and the loop
retries. -/
theorem attemptLoop_succ_retry {opts : CBOptions} {op : Nat → Bool}
    {failTime : Nat → Int} {a r : Nat} {b : Breaker} (h : op a = false)
    (ha : ¬ a = opts.maxRetries) :
    attemptLoop opts op failTime a (r + 1) b =
      ((attemptLoop opts op failTime (a + 1) r
          (recordFailureMetrics opts b { timestamp := failTime a, serviceId := b.circuitId })).1,
       (attemptLoop opts op failTime (a + 1) r
          (recordFailureMetrics opts b { timestamp := failTime a, serviceId := b.circuitId })).2.1,
       (attemptLoop opts op failTime (a + 1) r
          (recordFailureMetrics opts b { timestamp := failTime a, serviceId := b.circuitId })).2.2 + 1) := by
  simp [attemptLoop, h, ha]

/-- The retry loop ends in `ok` or `err`, and its effect on the control
fields is exactly one `onSuccess` (final success) or one `onFailure`
stamped with the final attempt's time (final failure). -/
theorem attemptLoop_ctrl (opts : CBOptions) (op : Nat → Bool) (failTime : Nat → Int) :
    ∀ (r a : Nat) (b : Breaker), a + r = opts.maxRetries + 1 → 1 ≤ r →
      ((attemptLoop opts op failTime a r b).1 = .ok ∧
        (attemptLoop opts op failTime a r b).2.1.ctrl = onSuccessCtrl opts b.ctrl) ∨
      ((attemptLoop opts op failTime a r b).1 = .err ∧
        (attemptLoop opts op failTime a r b).2.1.ctrl =
          onFailureCtrl opts (failTime opts.maxRetries) b.ctrl) := by
  intro r
  induction r with
  | zero => intro a b _ hr; omega
  | succ r ih =>
      intro a b hsum _
      cases hop : op a with
      | true =>
          left
          rw [attemptLoop_succ_true hop]
          exact ⟨rfl, by rw [ctrl_set_metrics, onSuccess_ctrl]⟩
      | false =>
          by_cases ha : a = opts.maxRetries
          · right
            rw [attemptLoop_succ_final hop ha]
            refine ⟨rfl, ?_⟩
            rw [onFailure_ctrl, recordFailureMetrics_ctrl, ha]
          · have hr : 1 ≤ r := by omega
            have hsum2 : (a + 1) + r = opts.maxRetries + 1 := by omega
            have hrec := ih (a + 1) (recordFailureMetrics opts b
              { timestamp := failTime a, serviceId := b.circuitId }) hsum2 hr
            rw [recordFailureMetrics_ctrl] at hrec
            rw [attemptLoop_succ_retry hop ha]
            exact hrec

/-- Effect of one `recordFailureMetrics` on the metrics record when
`metricsTracking` is on. -/
theorem recordFailureMetrics_tracked (opts : CBOptions) (b : Breaker)
    (fc : FailureContext) (h : opts.metricsTracking = true) :
    (recordFailureMetrics opts b fc).metrics =
      { totalCalls := b.metrics.totalCalls
        successCalls := b.metrics.successCalls
        failureCalls := b.metrics.failureCalls + 1
        lastFailures :=
          if (b.metrics.lastFailures ++ [fc]).length > 10
          then (b.metrics.lastFailures ++ [fc]).tail
          else b.metrics.lastFailures ++ [fc] } := by
  simp [recordFailureMetrics, h]

/-- Length of the push-then-shift update of `lastFailures`. -/
theorem pushLimit_length (l : List FailureContext) (fc : FailureContext)
    (h : l.length ≤ 10) :
    (if (l ++ [fc]).length > 10 then (l ++ [fc]).tail else l ++ [fc]).length
      = min 10 (l.length + 1) := by
  split_ifs with h1 <;> simp_all [List.length_tail] <;> omega

theorem recordFailureMetrics_totalCalls (opts : CBOptions) (b : Breaker)
    (fc : FailureContext) :
    (recordFailureMetrics opts b fc).metrics.totalCalls = b.metrics.totalCalls := by
  unfold recordFailureMetrics
  split <;> rfl

theorem recordFailureMetrics_successCalls (opts : CBOptions) (b : Breaker)
    (fc : FailureContext) :
    (recordFailureMetrics opts b fc).metrics.successCalls = b.metrics.successCalls := by
  unfold recordFailureMetrics
  split <;> rfl

theorem recordFailureMetrics_failureCalls (opts : CBOptions) (b : Breaker)
    (fc : FailureContext) (h : opts.metricsTracking = true) :
    (recordFailureMetrics opts b fc).metrics.failureCalls
      = b.metrics.failureCalls + 1 := by
  simp [recordFailureMetrics, h]

theorem recordFailureMetrics_len (opts : CBOptions) (b : Breaker)
    (fc : FailureContext) (h : opts.metricsTracking = true)
    (hlen : b.metrics.lastFailures.length ≤ 10) :
    (recordFailureMetrics opts b fc).metrics.lastFailures.length
      = min 10 (b.metrics.lastFailures.length + 1) := by
  simp only [recordFailureMetrics, h, Bool.not_true, Bool.false_eq_true, if_false]
  exact pushLimit_length _ _ hlen

/-- Full metrics accounting of the retry loop: `totalCalls` is
untouched, `successCalls` is bumped exactly when the loop ends in
success, `failureCalls` is bumped once per failed attempt, and
`lastFailures` grows by one entry per failed attempt, capped at 10. -/
theorem attemptLoop_metrics (opts : CBOptions) (op : Nat → Bool) (failTime : Nat → Int)
    (hTrack : opts.metricsTracking = true) :
    ∀ (r a : Nat) (b : Breaker),
      ((attemptLoop opts op failTime a r b).1 = .ok →
        1 ≤ (attemptLoop opts op failTime a r b).2.2) ∧
      (attemptLoop opts op failTime a r b).2.1.metrics.totalCalls
        = b.metrics.totalCalls ∧
      (attemptLoop opts op failTime a r b).2.1.metrics.successCalls
        = b.metrics.successCalls
          + (if (attemptLoop opts op failTime a r b).1 = .ok then 1 else 0) ∧
      (attemptLoop opts op failTime a r b).2.1.metrics.failureCalls
        = b.metrics.failureCalls
          + ((attemptLoop opts op failTime a r b).2.2
              - (if (attemptLoop opts op failTime a r b).1 = .ok then 1 else 0)) ∧
      (b.metrics.lastFailures.length ≤ 10 →
        (attemptLoop opts op failTime a r b).2.1.metrics.lastFailures.length
          = min 10 (b.metrics.lastFailures.length
              + ((attemptLoop opts op failTime a r b).2.2
                  - (if (attemptLoop opts op failTime a r b).1 = .ok then 1 else 0)))) := by
  intro r
  induction r with
  | zero =>
      intro a b
      refine ⟨?_, ?_, ?_, ?_, ?_⟩ <;> simp [attemptLoop]
  | succ r ih =>
      intro a b
      cases hop : op a with
      | true =>
          rw [attemptLoop_succ_true hop]
          refine ⟨fun _ => le_refl 1, ?_, ?_, ?_, ?_⟩
          · simp [onSuccess_metrics]
          · simp [onSuccess_metrics]
          · simp [onSuccess_metrics]
          · intro hlen
            simp only [onSuccess_metrics]
            simp
            exact hlen
      | false =>
          by_cases ha : a = opts.maxRetries
          · rw [attemptLoop_succ_final hop ha]
            refine ⟨by simp, ?_, ?_, ?_, ?_⟩
            · simp [onFailure_metrics, recordFailureMetrics_totalCalls]
            · simp [onFailure_metrics, recordFailureMetrics_successCalls]
            · simp [onFailure_metrics, recordFailureMetrics_failureCalls opts b _ hTrack]
            · intro hlen
              simp [onFailure_metrics, recordFailureMetrics_len opts b _ hTrack hlen]
          · rw [attemptLoop_succ_retry hop ha]
            obtain ⟨hi1, hi2, hi3, hi4, hi5⟩ := ih (a + 1)
              (recordFailureMetrics opts b { timestamp := failTime a, serviceId := b.circuitId })
            rw [recordFailureMetrics_totalCalls] at hi2
            rw [recordFailureMetrics_successCalls] at hi3
            rw [recordFailureMetrics_failureCalls opts b _ hTrack] at hi4
            dsimp only
            by_cases hok :
                (attemptLoop opts op failTime (a + 1) r
                  (recordFailureMetrics opts b
                    { timestamp := failTime a, serviceId := b.circuitId })).1 = .ok
            · have hn := hi1 hok
              refine ⟨fun _ => by omega, hi2, ?_, ?_, ?_⟩
              · simp only [hok, if_true] at hi3 ⊢
                omega
              · simp only [hok, if_true] at hi4 ⊢
                omega
              · intro hlen
                have hlen1 := recordFailureMetrics_len opts b
                  { timestamp := failTime a, serviceId := b.circuitId } hTrack hlen
                have hle : (recordFailureMetrics opts b
                    { timestamp := failTime a, serviceId := b.circuitId
                      }).metrics.lastFailures.length ≤ 10 := by omega
                have h5 := hi5 hle
                rw [hlen1] at h5
                simp only [hok, if_true] at h5 ⊢
                omega
            · refine ⟨fun hcon => absurd hcon hok, hi2, ?_, ?_, ?_⟩
              · simp only [hok, if_false] at hi3 ⊢
                omega
              · simp only [hok, if_false] at hi4 ⊢
                omega
              · intro hlen
                have hlen1 := recordFailureMetrics_len opts b
                  { timestamp := failTime a, serviceId := b.circuitId } hTrack hlen
                have hle : (recordFailureMetrics opts b
                    { timestamp := failTime a, serviceId := b.circuitId
                      }).metrics.lastFailures.length ≤ 10 := by omega
                have h5 := hi5 hle
                rw [hlen1] at h5
                simp only [hok, if_false] at h5 ⊢
                omega

theorem ctrl_state (b : Breaker) : b.ctrl.state = b.state := rfl

theorem ctrl_failures (b : Breaker) : b.ctrl.failures = b.failures := rfl

theorem ctrl_successCount (b : Breaker) : b.ctrl.successCount = b.successCount := rfl

theorem ctrl_lastFailureTime (b : Breaker) : b.ctrl.lastFailureTime = b.lastFailureTime := rfl

/-- Field-level description of `onFailureCtrl`. -/
theorem onFailureCtrl_spec (opts : CBOptions) (now : Int) (c : Ctrl) :
    (onFailureCtrl opts now c).failures = c.failures + 1 ∧
    (onFailureCtrl opts now c).successCount = 0 ∧
    (onFailureCtrl opts now c).lastFailureTime = now ∧
    (onFailureCtrl opts now c).state =
      (if c.failures + 1 ≥ opts.failureThreshold then .OPEN
       else if c.state = .HALF_OPEN then .OPEN else c.state) := by
  unfold onFailureCtrl
  dsimp only
  split_ifs <;> simp_all

/-- `onSuccessCtrl` in the `HALF_OPEN` state. -/
theorem onSuccessCtrl_half_open (opts : CBOptions) (c : Ctrl)
    (h : c.state = .HALF_OPEN) :
    onSuccessCtrl opts c =
      (if c.successCount + 1 ≥ opts.successThreshold then
        { c with state := .CLOSED, successCount := 0, failures := 0 }
       else { c with successCount := c.successCount + 1 }) := by
  unfold onSuccessCtrl
  rw [h]

/-- The loop of an operation that fails on every attempt always reports
the error outcome. -/
theorem attemptLoop_allfail_err (opts : CBOptions) (op : Nat → Bool)
    (failTime : Nat → Int) (hops : ∀ a, op a = false) :
    ∀ (r a : Nat) (b : Breaker), (attemptLoop opts op failTime a r b).1 = .err := by
  intro r
  induction r with
  | zero => intro a b; rfl
  | succ r ih =>
      intro a b
      by_cases ha : a = opts.maxRetries
      · rw [attemptLoop_succ_final (hops a) ha]
      · rw [attemptLoop_succ_retry (hops a) ha]
        exact ih (a + 1) _

/-- The loop never reports the circuit-open outcome. -/
theorem attemptLoop_ne_circuitOpen (opts : CBOptions) (op : Nat → Bool)
    (failTime : Nat → Int) :
    ∀ (r a : Nat) (b : Breaker), (attemptLoop opts op failTime a r b).1 ≠ .circuitOpen := by
  intro r
  induction r with
  | zero => intro a b; simp [attemptLoop]
  | succ r ih =>
      intro a b
      cases hop : op a with
      | true => rw [attemptLoop_succ_true hop]; simp
      | false =>
          by_cases ha : a = opts.maxRetries
          · rw [attemptLoop_succ_final hop ha]; simp
          · rw [attemptLoop_succ_retry hop ha]
            exact ih (a + 1) _

theorem recordFailureMetrics_len_le (opts : CBOptions) (b : Breaker)
    (fc : FailureContext) (h : b.metrics.lastFailures.length ≤ 10) :
    (recordFailureMetrics opts b fc).metrics.lastFailures.length ≤ 10 := by
  cases htr : opts.metricsTracking
  · simp [recordFailureMetrics, htr]
    exact h
  · rw [recordFailureMetrics_len opts b fc htr h]
    omega

/-- The loop never pushes `lastFailures` past 10 entries. -/
theorem attemptLoop_len_le (opts : CBOptions) (op : Nat → Bool) (failTime : Nat → Int) :
    ∀ (r a : Nat) (b : Breaker), b.metrics.lastFailures.length ≤ 10 →
      (attemptLoop opts op failTime a r b).2.1.metrics.lastFailures.length ≤ 10 := by
  intro r
  induction r with
  | zero => intro a b h; simpa [attemptLoop] using h
  | succ r ih =>
      intro a b h
      cases hop : op a with
      | true =>
          rw [attemptLoop_succ_true hop]
          simpa [onSuccess_metrics] using h
      | false =>
          by_cases ha : a = opts.maxRetries
          · rw [attemptLoop_succ_final hop ha]
            dsimp only
            rw [onFailure_metrics]
            exact recordFailureMetrics_len_le opts b _ h
          · rw [attemptLoop_succ_retry hop ha]
            exact ih (a + 1) _ (recordFailureMetrics_len_le opts b _ h)

/-- `execute` outside the `OPEN` state: bump `totalCalls` and run the
loop. -/
theorem execute_not_open (opts : CBOptions) (op : Nat → Bool) (failTime : Nat → Int)
    (now : Int) (b : Breaker) (h : ¬ b.state = .OPEN) :
    execute opts op failTime now b =
      attemptLoop opts op failTime 0 (opts.maxRetries + 1)
        { b with metrics := { b.metrics with totalCalls := b.metrics.totalCalls + 1 } } := by
  unfold execute
  dsimp only
  rw [if_neg h]

/-- `execute` in the `OPEN` state inside the reset window: reject
without running the loop. -/
theorem execute_open_rejected (opts : CBOptions) (op : Nat → Bool) (failTime : Nat → Int)
    (now : Int) (b : Breaker) (h : b.state = .OPEN)
    (ht : now - b.lastFailureTime < opts.resetTimeout) :
    execute opts op failTime now b =
      (.circuitOpen,
       { b with metrics := { b.metrics with totalCalls := b.metrics.totalCalls + 1 } },
       0) := by
  unfold execute
  dsimp only
  rw [if_pos h, if_pos ht]

/-- `execute` in the `OPEN` state once the reset window elapsed: move to
`HALF_OPEN`, then run the loop. -/
theorem execute_open_elapsed (opts : CBOptions) (op : Nat → Bool) (failTime : Nat → Int)
    (now : Int) (b : Breaker) (h : b.state = .OPEN)
    (ht : ¬ now - b.lastFailureTime < opts.resetTimeout) :
    execute opts op failTime now b =
      attemptLoop opts op failTime 0 (opts.maxRetries + 1)
        { b with state := .HALF_OPEN,
                 metrics := { b.metrics with totalCalls := b.metrics.totalCalls + 1 } } := by
  unfold execute
  dsimp only
  rw [if_pos h, if_neg ht]

/-- A sequence of `execute` calls: `runCalls call n b` performs calls
`0, 1, …, n-1` in order. -/
def runCalls (call : Nat → Breaker → Breaker) : Nat → Breaker → Breaker
  | 0, b => b
  | n + 1, b => call n (runCalls call n b)

/-- `execute` outside the `OPEN` state acts on the control fields as one
`onSuccess` or one `onFailure`, by the final outcome. -/
theorem execute_ctrl_not_open (opts : CBOptions) (op : Nat → Bool)
    (failTime : Nat → Int) (now : Int) (b : Breaker) (h : ¬ b.state = .OPEN) :
    ((execute opts op failTime now b).1 = .ok ∧
      (execute opts op failTime now b).2.1.ctrl = onSuccessCtrl opts b.ctrl) ∨
    ((execute opts op failTime now b).1 = .err ∧
      (execute opts op failTime now b).2.1.ctrl =
        onFailureCtrl opts (failTime opts.maxRetries) b.ctrl) := by
  rw [execute_not_open opts op failTime now b h]
  exact attemptLoop_ctrl opts op failTime (opts.maxRetries + 1) 0
    { b with metrics := { b.metrics with totalCalls := b.metrics.totalCalls + 1 } }
    (by omega) (by omega)

/-- `execute` in the `OPEN` state with the reset window elapsed acts on
the control fields as one `onSuccess`/`onFailure` taken from the
`HALF_OPEN` state. -/
theorem execute_ctrl_open_elapsed (opts : CBOptions) (op : Nat → Bool)
    (failTime : Nat → Int) (now : Int) (b : Breaker) (h : b.state = .OPEN)
    (ht : ¬ now - b.lastFailureTime < opts.resetTimeout) :
    ((execute opts op failTime now b).1 = .ok ∧
      (execute opts op failTime now b).2.1.ctrl =
        onSuccessCtrl opts { b.ctrl with state := .HALF_OPEN }) ∨
    ((execute opts op failTime now b).1 = .err ∧
      (execute opts op failTime now b).2.1.ctrl =
        onFailureCtrl opts (failTime opts.maxRetries) { b.ctrl with state := .HALF_OPEN }) := by
  rw [execute_open_elapsed opts op failTime now b h ht]
  exact attemptLoop_ctrl opts op failTime (opts.maxRetries + 1) 0
    { b with state := .HALF_OPEN,
             metrics := { b.metrics with totalCalls := b.metrics.totalCalls + 1 } }
    (by omega) (by omega)

/-! ## Claims -/

/-- C1, counterexample to the claim as stated.  One `execute()` call on a
fresh breaker with the default options and an operation that fails every
attempt performs 4 attempts (maxRetries = 3 retries plus the initial
attempt), yet `totalCalls` ends at 1, not 4 — so `totalCalls` is counted
once per call, not once per attempt — and `failureCalls` ends at 4, not
1 — so `failureCalls` is counted once per failed attempt, not once per
call's final outcome. -/
theorem claimC1_counterexample :
    (execute defaultCBOptions (fun _ => false) (fun i => (i : Int)) 0
      (initBreaker "c")).2.2 = 4 ∧
    (execute defaultCBOptions (fun _ => false) (fun i => (i : Int)) 0
      (initBreaker "c")).2.1.metrics.totalCalls = 1 ∧
    ¬ (execute defaultCBOptions (fun _ => false) (fun i => (i : Int)) 0
      (initBreaker "c")).2.1.metrics.totalCalls = 4 ∧
    (execute defaultCBOptions (fun _ => false) (fun i => (i : Int)) 0
      (initBreaker "c")).2.1.metrics.failureCalls = 4 ∧
    ¬ (execute defaultCBOptions (fun _ => false) (fun i => (i : Int)) 0
      (initBreaker "c")).2.1.metrics.failureCalls = 1 := by
  decide

/-- C1, amended metrics accounting of `execute` (with `metricsTracking`
on, its default): every call — rejected or not — increments
`metrics.totalCalls` by exactly one (not once per attempt);
`successCalls` is incremented exactly once iff the call's final outcome
is success; `failureCalls` is incremented once per failed attempt (not
once per call); and every failed attempt appends one failure-context
entry to `metrics.lastFailures`, whose length is capped at 10.  The
number of failed attempts is the invocation count minus one when the
final outcome is success. -/
theorem claimC1_amended (opts : CBOptions) (op : Nat → Bool)
    (failTime : Nat → Int) (now : Int) (b : Breaker)
    (hTrack : opts.metricsTracking = true) :
    (execute opts op failTime now b).2.1.metrics.totalCalls
      = b.metrics.totalCalls + 1 ∧
    ((execute opts op failTime now b).1 = .circuitOpen →
      (execute opts op failTime now b).2.2 = 0 ∧
      (execute opts op failTime now b).2.1.metrics.successCalls
        = b.metrics.successCalls ∧
      (execute opts op failTime now b).2.1.metrics.failureCalls
        = b.metrics.failureCalls) ∧
    (¬ (execute opts op failTime now b).1 = .circuitOpen →
      (execute opts op failTime now b).2.1.metrics.successCalls
        = b.metrics.successCalls
          + (if (execute opts op failTime now b).1 = .ok then 1 else 0) ∧
      (execute opts op failTime now b).2.1.metrics.failureCalls
        = b.metrics.failureCalls
          + ((execute opts op failTime now b).2.2
              - (if (execute opts op failTime now b).1 = .ok then 1 else 0)) ∧
      (b.metrics.lastFailures.length ≤ 10 →
        (execute opts op failTime now b).2.1.metrics.lastFailures.length
          = min 10 (b.metrics.lastFailures.length
              + ((execute opts op failTime now b).2.2
                  - (if (execute opts op failTime now b).1 = .ok then 1 else 0))))) := by
  by_cases hopen : b.state = .OPEN
  · by_cases ht : now - b.lastFailureTime < opts.resetTimeout
    · rw [execute_open_rejected opts op failTime now b hopen ht]
      refine ⟨rfl, fun _ => ⟨rfl, rfl, rfl⟩, fun hne => absurd rfl hne⟩
    · rw [execute_open_elapsed opts op failTime now b hopen ht]
      obtain ⟨h1, h2, h3, h4, h5⟩ := attemptLoop_metrics opts op failTime hTrack
        (opts.maxRetries + 1) 0
        { b with state := .HALF_OPEN,
                 metrics := { b.metrics with totalCalls := b.metrics.totalCalls + 1 } }
      refine ⟨h2, ?_, fun _ => ⟨h3, h4, h5⟩⟩
      intro hco
      exact absurd hco (attemptLoop_ne_circuitOpen opts op failTime _ _ _)
  · rw [execute_not_open opts op failTime now b hopen]
    obtain ⟨h1, h2, h3, h4, h5⟩ := attemptLoop_metrics opts op failTime hTrack
      (opts.maxRetries + 1) 0
      { b with metrics := { b.metrics with totalCalls := b.metrics.totalCalls + 1 } }
    refine ⟨h2, ?_, fun _ => ⟨h3, h4, h5⟩⟩
    intro hco
    exact absurd hco (attemptLoop_ne_circuitOpen opts op failTime _ _ _)

/-- Witness for the amended C1 at a concrete input: default options, an
operation failing every attempt, fresh breaker. -/
theorem claimC1_amended_witness :
    defaultCBOptions.metricsTracking = true ∧
    (execute defaultCBOptions (fun _ => false) (fun i => (i : Int)) 0
      (initBreaker "c")).2.1.metrics.totalCalls
      = (initBreaker "c").metrics.totalCalls + 1 :=
  ⟨rfl,
   (claimC1_amended defaultCBOptions (fun _ => false) (fun i => (i : Int)) 0
      (initBreaker "c") rfl).1⟩

/-- C3: for a breaker in the `OPEN` state, a call inside the reset
window is rejected with the circuit-open outcome, leaves everything but
`totalCalls` untouched and never invokes the wrapped operation
(invocation count 0); a call made once `resetTimeout` has elapsed is the
retry loop run on the breaker moved to `HALF_OPEN` first (so the
operation is invoked only after the transition). -/
theorem claimC3_open_gate (opts : CBOptions) (op : Nat → Bool)
    (failTime : Nat → Int) (now : Int) (b : Breaker)
    (hopen : b.state = .OPEN) :
    (now - b.lastFailureTime < opts.resetTimeout →
      execute opts op failTime now b =
        (.circuitOpen,
         { b with metrics := { b.metrics with totalCalls := b.metrics.totalCalls + 1 } },
         0)) ∧
    (¬ now - b.lastFailureTime < opts.resetTimeout →
      execute opts op failTime now b =
        attemptLoop opts op failTime 0 (opts.maxRetries + 1)
          { b with state := .HALF_OPEN,
                   metrics := { b.metrics with totalCalls := b.metrics.totalCalls + 1 } }) :=
  ⟨fun ht => execute_open_rejected opts op failTime now b hopen ht,
   fun ht => execute_open_elapsed opts op failTime now b hopen ht⟩

/-- Witness for C3 at a concrete input: a breaker opened at time 0,
called at time 0 (inside the 30 s window) and at time 30000 (window
elapsed). -/
theorem claimC3_open_gate_witness :
    (execute defaultCBOptions (fun _ => true) (fun _ => 0) 0
        { initBreaker "c" with state := CBState.OPEN } =
      (.circuitOpen,
       { initBreaker "c" with
           state := CBState.OPEN,
           metrics := { totalCalls := 1, successCalls := 0, failureCalls := 0,
                        lastFailures := [] } },
       0)) ∧
    (execute defaultCBOptions (fun _ => true) (fun _ => 0) 30000
        { initBreaker "c" with state := CBState.OPEN } =
      attemptLoop defaultCBOptions (fun _ => true) (fun _ => 0) 0 4
        { initBreaker "c" with
            state := CBState.HALF_OPEN,
            metrics := { totalCalls := 1, successCalls := 0, failureCalls := 0,
                         lastFailures := [] } }) :=
  ⟨(claimC3_open_gate defaultCBOptions (fun _ => true) (fun _ => 0) 0
      { initBreaker "c" with state := CBState.OPEN } rfl).1 (by decide),
   (claimC3_open_gate defaultCBOptions (fun _ => true) (fun _ => 0) 30000
      { initBreaker "c" with state := CBState.OPEN } rfl).2 (by decide)⟩

/-- One `execute` call of an operation failing on every attempt, made
outside the `OPEN` state: final outcome is the error, `failures` grows
by one, and the state opens exactly when the threshold is reached (or
the breaker was half-open). -/
theorem execute_fail_step (opts : CBOptions) (op : Nat → Bool) (failTime : Nat → Int)
    (now : Int) (b : Breaker) (hops : ∀ a, op a = false)
    (hnotOpen : ¬ b.state = .OPEN) :
    (execute opts op failTime now b).2.1.failures = b.failures + 1 ∧
    (execute opts op failTime now b).2.1.state =
      (if b.failures + 1 ≥ opts.failureThreshold then .OPEN
       else if b.state = .HALF_OPEN then .OPEN else b.state) ∧
    (execute opts op failTime now b).1 = .err := by
  have herr : (execute opts op failTime now b).1 = .err := by
    rw [execute_not_open opts op failTime now b hnotOpen]
    exact attemptLoop_allfail_err opts op failTime hops _ _ _
  cases execute_ctrl_not_open opts op failTime now b hnotOpen with
  | inl hok =>
      rw [herr] at hok
      exact absurd hok.1 (by simp)
  | inr h =>
      obtain ⟨_, hctrl⟩ := h
      obtain ⟨hfa, _, _, hst⟩ := onFailureCtrl_spec opts (failTime opts.maxRetries) b.ctrl
      exact ⟨(congrArg Ctrl.failures hctrl).trans hfa,
        (congrArg Ctrl.state hctrl).trans hst, herr⟩

/-- Invariant behind C2: starting closed with zero failures and feeding
only failing calls, after `k < failureThreshold` calls the breaker is
still closed with `failures = k`, and after exactly `failureThreshold`
(nonzero) calls it is open. -/
theorem failCalls_invariant (opts : CBOptions)
    (ops : Nat → Nat → Bool) (fts : Nat → Nat → Int) (nows : Nat → Int)
    (hops : ∀ i a, ops i a = false)
    (b : Breaker) (hclosed : b.state = .CLOSED) (hfail0 : b.failures = 0) :
    ∀ k, k ≤ opts.failureThreshold →
      (k < opts.failureThreshold →
        (runCalls (fun i bb => (execute opts (ops i) (fts i) (nows i) bb).2.1) k b).state
          = .CLOSED ∧
        (runCalls (fun i bb => (execute opts (ops i) (fts i) (nows i) bb).2.1) k b).failures
          = k) ∧
      (1 ≤ k → k = opts.failureThreshold →
        (runCalls (fun i bb => (execute opts (ops i) (fts i) (nows i) bb).2.1) k b).state
          = .OPEN ∧
        (runCalls (fun i bb => (execute opts (ops i) (fts i) (nows i) bb).2.1) k b).failures
          = k) := by
  intro k
  induction k with
  | zero =>
      intro _
      exact ⟨fun _ => ⟨hclosed, hfail0⟩, fun h1 _ => absurd h1 (by omega)⟩
  | succ k ih =>
      intro hk
      obtain ⟨hcl, hf⟩ := (ih (by omega)).1 (by omega)
      have hnotOpen : ¬ (runCalls (fun i bb =>
          (execute opts (ops i) (fts i) (nows i) bb).2.1) k b).state = .OPEN := by
        rw [hcl]; simp
      obtain ⟨hfa, hst, _⟩ := execute_fail_step opts (ops k) (fts k) (nows k)
        (runCalls (fun i bb => (execute opts (ops i) (fts i) (nows i) bb).2.1) k b)
        (hops k) hnotOpen
      have hrc : runCalls (fun i bb => (execute opts (ops i) (fts i) (nows i) bb).2.1)
          (k + 1) b
          = (execute opts (ops k) (fts k) (nows k)
              (runCalls (fun i bb => (execute opts (ops i) (fts i) (nows i) bb).2.1) k b)).2.1 :=
        rfl
      rw [hf] at hfa
      rw [hf, hcl] at hst
      constructor
      · intro hlt
        refine ⟨?_, by rw [hrc, hfa]⟩
        rw [hrc, hst, if_neg (by omega), if_neg (by simp)]
      · intro _ heq
        refine ⟨?_, by rw [hrc, hfa]⟩
        rw [hrc, hst, if_pos (by omega)]

/-- C2: a breaker starting closed with zero failures, given
`failureThreshold` consecutive calls whose wrapped operation fails every
attempt, has every such call end in the error outcome, finishes in the
`OPEN` state, and then rejects the next call — issued while
`now - lastFailureTime < resetTimeout` — with the circuit-open outcome
and zero invocations of the wrapped operation. -/
theorem claimC2_open_after_threshold (opts : CBOptions)
    (ops : Nat → Nat → Bool) (fts : Nat → Nat → Int) (nows : Nat → Int)
    (hops : ∀ i a, ops i a = false)
    (b : Breaker) (hclosed : b.state = .CLOSED) (hfail0 : b.failures = 0)
    (hthr : 1 ≤ opts.failureThreshold) :
    (∀ i, i < opts.failureThreshold →
      (execute opts (ops i) (fts i) (nows i)
        (runCalls (fun j bb => (execute opts (ops j) (fts j) (nows j) bb).2.1) i b)).1
        = .err) ∧
    (runCalls (fun j bb => (execute opts (ops j) (fts j) (nows j) bb).2.1)
        opts.failureThreshold b).state = .OPEN ∧
    (∀ (op2 : Nat → Bool) (ft2 : Nat → Int) (now2 : Int),
      now2 - (runCalls (fun j bb => (execute opts (ops j) (fts j) (nows j) bb).2.1)
          opts.failureThreshold b).lastFailureTime < opts.resetTimeout →
        (execute opts op2 ft2 now2
          (runCalls (fun j bb => (execute opts (ops j) (fts j) (nows j) bb).2.1)
            opts.failureThreshold b)).1 = .circuitOpen ∧
        (execute opts op2 ft2 now2
          (runCalls (fun j bb => (execute opts (ops j) (fts j) (nows j) bb).2.1)
            opts.failureThreshold b)).2.2 = 0) := by
  have hinv := failCalls_invariant opts ops fts nows hops b hclosed hfail0
  have hopenEnd := (hinv opts.failureThreshold (le_refl _)).2 hthr rfl
  refine ⟨?_, hopenEnd.1, ?_⟩
  · intro i hi
    obtain ⟨hcl, _⟩ := (hinv i (by omega)).1 hi
    exact (execute_fail_step opts (ops i) (fts i) (nows i) _ (hops i)
      (by rw [hcl]; simp)).2.2
  · intro op2 ft2 now2 ht
    rw [execute_open_rejected opts op2 ft2 now2 _ hopenEnd.1 ht]
    exact ⟨rfl, rfl⟩

/-- Witness for C2 at a concrete input: default options
(`failureThreshold = 5`), five all-failing calls on a fresh breaker
leave it open. -/
theorem claimC2_open_after_threshold_witness :
    (runCalls (fun j bb =>
        (execute defaultCBOptions (fun _ => false) (fun a => (a : Int)) 0 bb).2.1)
      5 (initBreaker "c")).state = CBState.OPEN :=
  (claimC2_open_after_threshold defaultCBOptions (fun _ _ => false)
    (fun _ a => (a : Int)) (fun _ => 0) (fun _ _ => rfl)
    (initBreaker "c") rfl rfl (by decide)).2.1

theorem foldl_recordFailureMetrics_len_le (opts : CBOptions) :
    ∀ (fcs : List FailureContext) (b : Breaker),
      b.metrics.lastFailures.length ≤ 10 →
      ((fcs.foldl (recordFailureMetrics opts) b).metrics.lastFailures).length ≤ 10 := by
  intro fcs
  induction fcs with
  | nil => intro b h; simpa using h
  | cons fc rest ih =>
      intro b h
      exact ih _ (recordFailureMetrics_len_le opts b fc h)

/-- When the list already holds 10 entries, recording one more drops the
oldest (head) and appends the new one at the back. -/
theorem recordFailureMetrics_evict (opts : CBOptions) (b : Breaker)
    (fc : FailureContext) (htr : opts.metricsTracking = true)
    (h10 : b.metrics.lastFailures.length = 10) :
    (recordFailureMetrics opts b fc).metrics.lastFailures
      = b.metrics.lastFailures.tail ++ [fc] := by
  simp only [recordFailureMetrics, htr, Bool.not_true, Bool.false_eq_true, if_false]
  rw [if_pos (by simp [h10])]
  cases hl : b.metrics.lastFailures with
  | nil => rw [hl] at h10; simp at h10
  | cons x xs => simp

/-- C7: for every breaker whose `lastFailures` respects the bound,
any sequence of recorded failures keeps it at 10 entries or fewer; when
the list is full, the next record evicts the oldest entry and appends
the new one; and a whole `execute` call also preserves the bound. -/
theorem claimC7_last_failures_bounded (opts : CBOptions) (b : Breaker)
    (hlen : b.metrics.lastFailures.length ≤ 10) :
    (∀ fcs : List FailureContext,
      ((fcs.foldl (recordFailureMetrics opts) b).metrics.lastFailures).length ≤ 10) ∧
    (∀ fc : FailureContext, opts.metricsTracking = true →
      b.metrics.lastFailures.length = 10 →
      (recordFailureMetrics opts b fc).metrics.lastFailures
        = b.metrics.lastFailures.tail ++ [fc]) ∧
    (∀ (op : Nat → Bool) (failTime : Nat → Int) (now : Int),
      (execute opts op failTime now b).2.1.metrics.lastFailures.length ≤ 10) := by
  refine ⟨fun fcs => foldl_recordFailureMetrics_len_le opts fcs b hlen,
    fun fc htr h10 => recordFailureMetrics_evict opts b fc htr h10,
    ?_⟩
  intro op failTime now
  by_cases hopen : b.state = .OPEN
  · by_cases ht : now - b.lastFailureTime < opts.resetTimeout
    · rw [execute_open_rejected opts op failTime now b hopen ht]
      exact hlen
    · rw [execute_open_elapsed opts op failTime now b hopen ht]
      exact attemptLoop_len_le opts op failTime _ _ _ hlen
  · rw [execute_not_open opts op failTime now b hopen]
    exact attemptLoop_len_le opts op failTime _ _ _ hlen

/-- Witness for C7 at a concrete input: recording 12 failures on a fresh
breaker leaves at most 10 entries. -/
theorem claimC7_last_failures_bounded_witness :
    ((List.replicate 12 ({ timestamp := 0, serviceId := "c" } : FailureContext)).foldl
        (recordFailureMetrics defaultCBOptions) (initBreaker "c")).metrics.lastFailures.length
      ≤ 10 :=
  (claimC7_last_failures_bounded defaultCBOptions (initBreaker "c") (by decide)).1
    (List.replicate 12 { timestamp := 0, serviceId := "c" })

theorem filter_eq_nil_of_forall {α : Type} (p : α → Bool) :
    ∀ l : List α, (∀ x ∈ l, p x = false) → l.filter p = [] := by
  intro l
  induction l with
  | nil => intro _; rfl
  | cons x xs ih =>
      intro h
      rw [List.filter_cons_of_neg (by simp [h x (by simp)])]
      exact ih fun y hy => h y (by simp [hy])

theorem heartbeat_eq_notFound (st : RegistryState) (serviceId status : String)
    (now : Int) (h : st.records.filter (fun e => e.1.2 == serviceId) = []) :
    heartbeat st serviceId status now = (.notFound, st) := by
  unfold heartbeat
  rw [h]

theorem heartbeat_eq_found (st : RegistryState) (serviceId status : String)
    (now : Int) (e : (String × String) × ServiceInfo)
    (rest : List ((String × String) × ServiceInfo))
    (h : st.records.filter (fun x => x.1.2 == serviceId) = e :: rest) :
    heartbeat st serviceId status now =
      (.ok, { st with records :=
        (updateFirstRecord e.1
          (fun info => { info with status := status, lastHeartbeat := now })
          st.records) }) := by
  unfold heartbeat
  rw [h]

theorem updateFirstRecord_append (key : String × String) (f : ServiceInfo → ServiceInfo) :
    ∀ (pre post : List ((String × String) × ServiceInfo))
      (e : (String × String) × ServiceInfo),
      (∀ x ∈ pre, ¬ x.1 = key) → e.1 = key →
      updateFirstRecord key f (pre ++ e :: post) = pre ++ (e.1, f e.2) :: post := by
  intro pre
  induction pre with
  | nil =>
      intro post e _ he
      simp [updateFirstRecord, he]
  | cons x xs ih =>
      intro post e hpre he
      rw [List.cons_append, updateFirstRecord,
        if_neg (by simp [hpre x (by simp)]), ih post e (fun y hy => hpre y (by simp [hy])) he]
      rfl

/-- C6: a heartbeat whose `serviceId` matches no stored instance answers
404 Not Found and leaves the whole registry state — records and name
index — unchanged; a heartbeat matching a stored instance answers OK,
overwrites exactly that instance's `status` and `lastHeartbeat`, leaves
every other record untouched and leaves the name index untouched. -/
theorem claimC6_heartbeat (st : RegistryState) (serviceId status : String) (now : Int) :
    ((∀ e ∈ st.records, ¬ e.1.2 = serviceId) →
      heartbeat st serviceId status now = (.notFound, st)) ∧
    (∀ (pre post : List ((String × String) × ServiceInfo))
       (e : (String × String) × ServiceInfo),
      st.records = pre ++ e :: post →
      (∀ x ∈ pre, ¬ x.1.2 = serviceId) →
      e.1.2 = serviceId →
      heartbeat st serviceId status now =
        (.ok, { st with records :=
          pre ++ (e.1, { e.2 with status := status, lastHeartbeat := now }) :: post })) := by
  constructor
  · intro hall
    exact heartbeat_eq_notFound st serviceId status now
      (filter_eq_nil_of_forall _ _ fun x hx => by simp [hall x hx])
  · intro pre post e hrec hpre he
    have hfil : st.records.filter (fun x => x.1.2 == serviceId)
        = e :: post.filter (fun x => x.1.2 == serviceId) := by
      rw [hrec, List.filter_append,
        filter_eq_nil_of_forall _ pre (fun x hx => by simp [hpre x hx]),
        List.filter_cons_of_pos (by simp [he]), List.nil_append]
    rw [heartbeat_eq_found st serviceId status now e _ hfil, hrec,
      updateFirstRecord_append e.1 _ pre post e
        (fun x hx => by
          intro hk
          exact hpre x hx (by rw [hk, he]))
        rfl]

/-- Witness for C6 at a concrete input: a one-instance registry; an
unknown id answers 404 with the state unchanged, the stored id gets its
status and heartbeat overwritten. -/
theorem claimC6_heartbeat_witness :
    (heartbeat
        { records := [(("svc", "id1"),
            { host := "h", port := 1, healthEndpoint := "/health", version := "1.0.0",
              status := "UP", registeredAt := 0, lastHeartbeat := 0 })],
          index := [("svc", "id1")] } "id2" "UP" 5 =
      (.notFound,
       { records := [(("svc", "id1"),
           { host := "h", port := 1, healthEndpoint := "/health", version := "1.0.0",
             status := "UP", registeredAt := 0, lastHeartbeat := 0 })],
         index := [("svc", "id1")] })) ∧
    (heartbeat
        { records := [(("svc", "id1"),
            { host := "h", port := 1, healthEndpoint := "/health", version := "1.0.0",
              status := "UP", registeredAt := 0, lastHeartbeat := 0 })],
          index := [("svc", "id1")] } "id1" "STOPPING" 5 =
      (.ok,
       { records := [(("svc", "id1"),
           { host := "h", port := 1, healthEndpoint := "/health", version := "1.0.0",
             status := "STOPPING", registeredAt := 0, lastHeartbeat := 5 })],
         index := [("svc", "id1")] })) :=
  ⟨(claimC6_heartbeat _ "id2" "UP" 5).1 (by decide),
   (claimC6_heartbeat _ "id1" "STOPPING" 5).2 [] []
     (("svc", "id1"),
      { host := "h", port := 1, healthEndpoint := "/health", version := "1.0.0",
        status := "UP", registeredAt := 0, lastHeartbeat := 0 })
     rfl (by simp) rfl⟩

/-- Effect of the sweep loop on an arbitrary accumulator: every key of
an expired snapshot entry is dropped from both stores, everything else
survives. -/
theorem sweep_foldl (maxAge now : Int) :
    ∀ (l : List ((String × String) × ServiceInfo)) (acc : RegistryState),
      (l.foldl (sweepStep maxAge now) acc).records
        = acc.records.filter
            (fun r => !(l.any (fun e => heartbeatExpired maxAge now e.2 && r.1 == e.1))) ∧
      (l.foldl (sweepStep maxAge now) acc).index
        = acc.index.filter
            (fun p => !(l.any (fun e => heartbeatExpired maxAge now e.2 && p == e.1))) := by
  intro l
  induction l with
  | nil =>
      intro acc
      constructor <;> simp
  | cons e l ih =>
      intro acc
      rw [List.foldl_cons]
      cases hexp : heartbeatExpired maxAge now e.2 with
      | false =>
          have hstep : sweepStep maxAge now acc e = acc := by
            simp [sweepStep, hexp]
          rw [hstep]
          obtain ⟨ihr, ihi⟩ := ih acc
          constructor
          · rw [ihr]
            apply List.filter_congr
            intro r _
            simp [List.any_cons, hexp]
          · rw [ihi]
            apply List.filter_congr
            intro p _
            simp [List.any_cons, hexp]
      | true =>
          have hstep : sweepStep maxAge now acc e
              = { records := acc.records.filter (fun r => !(r.1 == e.1)),
                  index := acc.index.filter (fun p => !(p == e.1)) } := by
            simp [sweepStep, hexp]
          rw [hstep]
          obtain ⟨ihr, ihi⟩ := ih
            { records := acc.records.filter (fun r => !(r.1 == e.1)),
              index := acc.index.filter (fun p => !(p == e.1)) }
          constructor
          · rw [ihr]
            dsimp only
            rw [List.filter_filter]
            apply List.filter_congr
            intro r _
            cases h1 : (r.1 == e.1) <;> cases h2 : l.any
                (fun x => heartbeatExpired maxAge now x.2 && r.1 == x.1) <;>
              simp [List.any_cons, hexp, h1, h2]
          · rw [ihi]
            dsimp only
            rw [List.filter_filter]
            apply List.filter_congr
            intro p _
            cases h1 : (p == e.1) <;> cases h2 : l.any
                (fun x => heartbeatExpired maxAge now x.2 && p == x.1) <;>
              simp [List.any_cons, hexp, h1, h2]

/-- With unique keys (the Redis invariant), a tick deletes exactly the
expired records. -/
theorem sweepTick_records (maxAge now : Int) (st : RegistryState)
    (hnd : (st.records.map Prod.fst).Nodup) :
    (sweepTick maxAge now st).records
      = st.records.filter (fun e => !(heartbeatExpired maxAge now e.2)) := by
  unfold sweepTick
  rw [(sweep_foldl maxAge now st.records st).1]
  apply List.filter_congr
  intro r hr
  have hany : (st.records.any (fun e => heartbeatExpired maxAge now e.2 && r.1 == e.1))
      = heartbeatExpired maxAge now r.2 := by
    cases hexp : heartbeatExpired maxAge now r.2 with
    | true =>
        apply List.any_eq_true.mpr
        exact ⟨r, hr, by simp [hexp]⟩
    | false =>
        apply List.any_eq_false.mpr
        intro e he
        cases hee : heartbeatExpired maxAge now e.2 with
        | false => simp [hee]
        | true =>
            simp only [hee, Bool.true_and]
            intro hkey
            have hkey2 : r.1 = e.1 := by simpa using hkey
            have : r = e := List.inj_on_of_nodup_map hnd hr he hkey2
            rw [this, hee] at hexp
            exact absurd hexp (by simp)
  rw [hany]

/-- The index of a tick: exactly the pairs matching no expired record
survive (no uniqueness assumption needed). -/
theorem sweepTick_index (maxAge now : Int) (st : RegistryState) :
    (sweepTick maxAge now st).index
      = st.index.filter
          (fun p => !(st.records.any
            (fun e => heartbeatExpired maxAge now e.2 && p == e.1))) :=
  (sweep_foldl maxAge now st.records st).2

/-- C5: the sweep interval equals `min(60000, (ttl + retryDelay *
maxRetries) / 2)`; one sweep tick over a store with unique keys (the
Redis invariant) retains exactly the records with
`now - lastHeartbeat ≤ maxHeartbeatAge`, drops index pairs of expired
records, and every expired instance disappears from both the record
store and the name index. -/
theorem claimC5_sweep (ttl retryDelay maxRetries : ℕ) (maxAge now : Int)
    (st : RegistryState) (hnd : (st.records.map Prod.fst).Nodup) :
    cleanupInterval ttl retryDelay maxRetries
      = min 60000 (((ttl : ℚ) + (retryDelay : ℚ) * (maxRetries : ℚ)) / 2) ∧
    (sweepTick maxAge now st).records
      = st.records.filter (fun e => !(heartbeatExpired maxAge now e.2)) ∧
    (sweepTick maxAge now st).index
      = st.index.filter
          (fun p => !(st.records.any
            (fun e => heartbeatExpired maxAge now e.2 && p == e.1))) ∧
    (∀ e ∈ st.records, heartbeatExpired maxAge now e.2 = true →
      (∀ e2 ∈ (sweepTick maxAge now st).records, ¬ e2.1 = e.1) ∧
      e.1 ∉ (sweepTick maxAge now st).index) := by
  refine ⟨?_, sweepTick_records maxAge now st hnd, sweepTick_index maxAge now st, ?_⟩
  · unfold cleanupInterval maxHeartbeatAge
    rw [Nat.cast_add, Nat.cast_mul]
  · intro e he hexp
    constructor
    · intro e2 he2 hkey
      rw [sweepTick_records maxAge now st hnd] at he2
      have h1 := List.of_mem_filter he2
      have h2 := List.mem_of_mem_filter he2
      have he2e : e2 = e := List.inj_on_of_nodup_map hnd h2 he hkey
      rw [he2e, hexp] at h1
      exact absurd h1 (by simp)
    · intro hin
      rw [sweepTick_index maxAge now st] at hin
      have h1 := List.of_mem_filter hin
      have hany : st.records.any
          (fun x => heartbeatExpired maxAge now x.2 && e.1 == x.1) = true :=
        List.any_eq_true.mpr ⟨e, he, by simp [hexp]⟩
      rw [hany] at h1
      exact absurd h1 (by simp)

/-- Witness for C5 at a concrete input: default registry timing (ttl
30 s, retryDelay 10 s, maxRetries 5, so `maxHeartbeatAge = 80000`), a
two-instance store where one heartbeat is 100 s old; the tick keeps
exactly the fresh instance. -/
theorem claimC5_sweep_witness :
    (sweepTick 80000 100000
        { records :=
            [(("auth", "i1"),
              { host := "h1", port := 1, healthEndpoint := "/health", version := "1.0.0",
                status := "UP", registeredAt := 0, lastHeartbeat := 0 }),
             (("pay", "i2"),
              { host := "h2", port := 2, healthEndpoint := "/health", version := "1.0.0",
                status := "UP", registeredAt := 0, lastHeartbeat := 90000 })],
          index := [("auth", "i1"), ("pay", "i2")] }).records
      = List.filter (fun e => !(heartbeatExpired 80000 100000 e.2))
          [(("auth", "i1"),
            { host := "h1", port := 1, healthEndpoint := "/health", version := "1.0.0",
              status := "UP", registeredAt := 0, lastHeartbeat := 0 }),
           (("pay", "i2"),
            { host := "h2", port := 2, healthEndpoint := "/health", version := "1.0.0",
              status := "UP", registeredAt := 0, lastHeartbeat := 90000 })] :=
  (claimC5_sweep 30000 10000 5 80000 100000
    { records :=
        [(("auth", "i1"),
          { host := "h1", port := 1, healthEndpoint := "/health", version := "1.0.0",
            status := "UP", registeredAt := 0, lastHeartbeat := 0 }),
         (("pay", "i2"),
          { host := "h2", port := 2, healthEndpoint := "/health", version := "1.0.0",
            status := "UP", registeredAt := 0, lastHeartbeat := 90000 })],
      index := [("auth", "i1"), ("pay", "i2")] }
    (by decide)).2.1

/-- C4: in the `HALF_OPEN` state, a call whose final outcome is success
increments `successCount`, and when the incremented count reaches
`successThreshold` the breaker closes with `failures` and `successCount`
zeroed; a call whose final outcome is failure reopens the breaker. -/
theorem claimC4_half_open (opts : CBOptions) (op : Nat → Bool)
    (failTime : Nat → Int) (now : Int) (b : Breaker)
    (hho : b.state = .HALF_OPEN) :
    ((execute opts op failTime now b).1 = .ok →
      (b.successCount + 1 ≥ opts.successThreshold →
        (execute opts op failTime now b).2.1.state = .CLOSED ∧
        (execute opts op failTime now b).2.1.failures = 0 ∧
        (execute opts op failTime now b).2.1.successCount = 0) ∧
      (b.successCount + 1 < opts.successThreshold →
        (execute opts op failTime now b).2.1.state = .HALF_OPEN ∧
        (execute opts op failTime now b).2.1.successCount = b.successCount + 1)) ∧
    ((execute opts op failTime now b).1 = .err →
      (execute opts op failTime now b).2.1.state = .OPEN) := by
  have hnotOpen : ¬ b.state = .OPEN := by rw [hho]; simp
  cases execute_ctrl_not_open opts op failTime now b hnotOpen with
  | inl hok =>
      obtain ⟨ho, hctrl⟩ := hok
      constructor
      · intro _
        rw [onSuccessCtrl_half_open opts b.ctrl ((ctrl_state b).trans hho)] at hctrl
        constructor
        · intro hthr
          rw [if_pos (show b.ctrl.successCount + 1 ≥ opts.successThreshold from hthr)] at hctrl
          exact ⟨congrArg Ctrl.state hctrl, congrArg Ctrl.failures hctrl,
            congrArg Ctrl.successCount hctrl⟩
        · intro hthr
          rw [if_neg (show ¬ b.ctrl.successCount + 1 ≥ opts.successThreshold by
            rw [ctrl_successCount]; omega)] at hctrl
          exact ⟨(congrArg Ctrl.state hctrl).trans hho,
            congrArg Ctrl.successCount hctrl⟩
      · intro herr
        rw [ho] at herr
        exact absurd herr (by simp)
  | inr herr =>
      obtain ⟨he, hctrl⟩ := herr
      constructor
      · intro hok
        rw [he] at hok
        exact absurd hok (by simp)
      · intro _
        obtain ⟨hf, hsc, hlf, hst⟩ := onFailureCtrl_spec opts (failTime opts.maxRetries) b.ctrl
        have hgoal : (execute opts op failTime now b).2.1.state =
            (if b.ctrl.failures + 1 ≥ opts.failureThreshold then CBState.OPEN
             else if b.ctrl.state = .HALF_OPEN then CBState.OPEN else b.ctrl.state) :=
          (congrArg Ctrl.state hctrl).trans hst
        rw [hgoal]
        split_ifs with h1 h2
        · rfl
        · rfl
        · exact absurd ((ctrl_state b).trans hho) h2

/-- Witness for C4 at a concrete input: a half-open breaker with
`successCount = 2` and the default `successThreshold = 3`, one
successful call closes it; with an always-failing operation, one call
reopens it. -/
theorem claimC4_half_open_witness :
    ((execute defaultCBOptions (fun _ => true) (fun _ => 0) 0
        { initBreaker "c" with state := CBState.HALF_OPEN, successCount := 2 }).1 = .ok →
      (2 + 1 ≥ defaultCBOptions.successThreshold →
        (execute defaultCBOptions (fun _ => true) (fun _ => 0) 0
          { initBreaker "c" with state := CBState.HALF_OPEN, successCount := 2 }).2.1.state
            = .CLOSED ∧
        (execute defaultCBOptions (fun _ => true) (fun _ => 0) 0
          { initBreaker "c" with state := CBState.HALF_OPEN, successCount := 2 }).2.1.failures
            = 0 ∧
        (execute defaultCBOptions (fun _ => true) (fun _ => 0) 0
          { initBreaker "c" with state := CBState.HALF_OPEN, successCount := 2 }).2.1.successCount
            = 0) ∧
      (2 + 1 < defaultCBOptions.successThreshold →
        (execute defaultCBOptions (fun _ => true) (fun _ => 0) 0
          { initBreaker "c" with state := CBState.HALF_OPEN, successCount := 2 }).2.1.state
            = .HALF_OPEN ∧
        (execute defaultCBOptions (fun _ => true) (fun _ => 0) 0
          { initBreaker "c" with state := CBState.HALF_OPEN, successCount := 2 }).2.1.successCount
            = 2 + 1)) ∧
    ((execute defaultCBOptions (fun _ => true) (fun _ => 0) 0
        { initBreaker "c" with state := CBState.HALF_OPEN, successCount := 2 }).1 = .err →
      (execute defaultCBOptions (fun _ => true) (fun _ => 0) 0
        { initBreaker "c" with state := CBState.HALF_OPEN, successCount := 2 }).2.1.state
          = .OPEN) :=
  claimC4_half_open defaultCBOptions (fun _ => true) (fun _ => 0) 0
    { initBreaker "c" with state := CBState.HALF_OPEN, successCount := 2 } rfl

/-- C8: with a stored service id, a heartbeat whose request throws an
axios error carrying a 404 response clears the local id, stops the
heartbeat timer and calls `register` again; any other thrown error, and
any resolved response, leaves the id and the timer untouched with no
further action. -/
theorem claimC8_reregister_on_404 (st : ClientState) (sid : String)
    (envPORT : Option Int) (hsid : st.serviceId = some sid) :
    (sendHeartbeat st (.failure (some 404)) envPORT =
      ({ st with serviceId := none, timerRunning := false },
       .reRegister (reRegisterArgs st.appName envPORT))) ∧
    (∀ s : Option Nat, ¬ s = some 404 →
      sendHeartbeat st (.failure s) envPORT = (st, .noAction)) ∧
    (∀ status : Nat,
      sendHeartbeat st (.success status) envPORT = (st, .noAction)) := by
  refine ⟨?_, ?_, ?_⟩
  · simp [sendHeartbeat, hsid]
  · intro s hs
    simp [sendHeartbeat, hsid, hs]
  · intro status
    simp [sendHeartbeat, hsid]

/-- Witness for C8 at a concrete input: a registered client receiving a
404 clears its id and re-registers; a 500 changes nothing. -/
theorem claimC8_reregister_on_404_witness :
    (sendHeartbeat
        { serviceId := some "id1", timerRunning := true, appName := "auth", retryCount := 0 }
        (.failure (some 404)) (some 4000) =
      ({ serviceId := none, timerRunning := false, appName := "auth", retryCount := 0 },
       .reRegister (reRegisterArgs "auth" (some 4000)))) ∧
    (sendHeartbeat
        { serviceId := some "id1", timerRunning := true, appName := "auth", retryCount := 0 }
        (.failure (some 500)) (some 4000) =
      ({ serviceId := some "id1", timerRunning := true, appName := "auth", retryCount := 0 },
       .noAction)) :=
  ⟨(claimC8_reregister_on_404
      { serviceId := some "id1", timerRunning := true, appName := "auth", retryCount := 0 }
      "id1" (some 4000) rfl).1,
   (claimC8_reregister_on_404
      { serviceId := some "id1", timerRunning := true, appName := "auth", retryCount := 0 }
      "id1" (some 4000) rfl).2.1 (some 500) (by decide)⟩

/-- C9: the consumer wrapper acks a message whose JSON parses and whose
handler completes, and nacks with `allUpTo = false, requeue = false` a
message whose parsing or handler throws; `createQueue` called without
overrides (as `subscribeToEvents` does) asserts the queue durable with
the shared dead-letter exchange `dead.letter`, and the dead-letter queue
is bound with the catch-all pattern `#`. -/
theorem claimC9_ack_nack (α : Type) (parse : String → Option α)
    (handler : α → Bool) (m : String) :
    (∀ content, parse m = some content → handler content = true →
      messageHandler parse handler (some m) = some .ack) ∧
    (∀ content, parse m = some content → handler content = false →
      messageHandler parse handler (some m) = some (.nack false false)) ∧
    (parse m = none →
      messageHandler parse handler (some m) = some (.nack false false)) ∧
    (createQueueOptions emptyQueueOptions).deadLetterExchange
      = some deadLetterExchangeName ∧
    (createQueueOptions emptyQueueOptions).durable = some true ∧
    deadLetterBindingPattern = "#" := by
  refine ⟨?_, ?_, ?_, rfl, rfl, rfl⟩
  · intro content hp hh
    simp [messageHandler, hp, hh]
  · intro content hp hh
    simp [messageHandler, hp, hh]
  · intro hp
    simp [messageHandler, hp]

/-- Witness for C9 at concrete inputs: a parsing message with a clean
handler is acked; a throwing handler and a parse failure are both
nacked without requeue. -/
theorem claimC9_ack_nack_witness :
    messageHandler (fun _ : String => some 0) (fun _ : Nat => true) (some "m")
        = some .ack ∧
    messageHandler (fun _ : String => some 0) (fun _ : Nat => false) (some "m")
        = some (.nack false false) ∧
    messageHandler (fun _ : String => (none : Option Nat)) (fun _ : Nat => true) (some "m")
        = some (.nack false false) :=
  ⟨(claimC9_ack_nack Nat (fun _ => some 0) (fun _ => true) "m").1 0 rfl rfl,
   (claimC9_ack_nack Nat (fun _ => some 0) (fun _ => false) "m").2.1 0 rfl rfl,
   (claimC9_ack_nack Nat (fun _ => none) (fun _ => true) "m").2.2.1 rfl⟩

/-- C10: both automatic re-registration sites — the heartbeat 404
branch and the registration-error retry — call `register` with only the
remembered service name and a port taken from the `PORT` environment
variable (3000 when unset); after `register`'s parameter defaults, the
posted registration carries `version = "1.0.0"`, `description = ""`,
`host = HOST env or "localhost"` and `healthEndpoint = "/health"`
regardless of what the original registration supplied. -/
theorem claimC10_reregistration_args (st : ClientState) (sid : String)
    (envPORT : Option Int) (envHOST : Option String)
    (maxRetries : Nat) (retryDelay : Int)
    (hsid : st.serviceId = some sid) (hretry : st.retryCount < maxRetries) :
    (sendHeartbeat st (.failure (some 404)) envPORT).2
      = .reRegister (reRegisterArgs st.appName envPORT) ∧
    (handleRegistrationError st envPORT maxRetries retryDelay).2
      = .retryAfter (retryDelay * 2 ^ st.retryCount) (reRegisterArgs st.appName envPORT) ∧
    resolveRegisterArgs (reRegisterArgs st.appName envPORT) envHOST
      = { port := envPORT.getD 3000
          name := st.appName
          version := "1.0.0"
          description := ""
          host := envHOST.getD "localhost"
          healthEndpoint := "/health" } := by
  refine ⟨?_, ?_, rfl⟩
  · simp [sendHeartbeat, hsid]
  · unfold handleRegistrationError
    rw [if_pos hretry]

/-- Witness for C10 at a concrete input: app "auth", PORT unset, HOST
unset, original registration long forgotten. -/
theorem claimC10_reregistration_args_witness :
    (sendHeartbeat
        { serviceId := some "id1", timerRunning := true, appName := "auth", retryCount := 1 }
        (.failure (some 404)) none).2
      = .reRegister (reRegisterArgs "auth" none) ∧
    resolveRegisterArgs (reRegisterArgs "auth" none) none
      = { port := 3000, name := "auth", version := "1.0.0", description := "",
          host := "localhost", healthEndpoint := "/health" } :=
  ⟨(claimC10_reregistration_args
      { serviceId := some "id1", timerRunning := true, appName := "auth", retryCount := 1 }
      "id1" none none 5 10000 rfl (by decide)).1,
   (claimC10_reregistration_args
      { serviceId := some "id1", timerRunning := true, appName := "auth", retryCount := 1 }
      "id1" none none 5 10000 rfl (by decide)).2.2⟩

end Microbun
